import Mathlib

/-!
Verification of the Continuous Pomodoro engine (shallow embedding).

The definitions below are translated from the application source:
the initial-state reconciliation (getInitialState), the visibility-resume
reconciliation (syncStateFromStorage), the reward-ledger gift effect, the
rest-session handlers, and the manual cycle adjustment handlers, together
with an event-step semantics over the whole component state.

JavaScript numbers appearing in the persistence layer are modelled by
JSNum (an integer or NaN), since parseInt on a non-numeric string yields
NaN and NaN propagates through arithmetic, comparisons and Math.max.
Inside the running application all state values are integers, so the
event-step layer works over Int directly.
-/

/-- Math.floor of the real quotient of two integers, for a positive
divisor: this is Int.fdiv (floor division). -/
def jsFloorDiv (a b : Int) : Int := Int.fdiv a b

/-- Math.ceil of the real quotient of two integers, for a positive
divisor, expressed through floor division. -/
def jsCeilDiv (a b : Int) : Int := -(Int.fdiv (-a) b)

/-- A JavaScript number as produced by parseInt and integer arithmetic:
either an integer or NaN. -/
inductive JSNum where
  | num : Int → JSNum
  | nan : JSNum
deriving DecidableEq, Repr

/-- JavaScript addition: NaN propagates. -/
def JSNum.add : JSNum → JSNum → JSNum
  | .num a, .num b => .num (a + b)
  | _, _ => .nan

/-- JavaScript subtraction: NaN propagates. -/
def JSNum.sub : JSNum → JSNum → JSNum
  | .num a, .num b => .num (a - b)
  | _, _ => .nan

/-- Math.floor(a / b) for a positive integer divisor b: NaN propagates. -/
def JSNum.floorDivPos : JSNum → Int → JSNum
  | .num a, b => .num (jsFloorDiv a b)
  | .nan, _ => .nan

/-- Math.max of two JavaScript numbers: NaN if either argument is NaN. -/
def JSNum.maxJS : JSNum → JSNum → JSNum
  | .num a, .num b => .num (max a b)
  | _, _ => .nan

/-- The comparison a > 0; false on NaN (every JS comparison with NaN is
false). -/
def JSNum.gt0 : JSNum → Bool
  | .num a => decide (0 < a)
  | .nan => false

/-- The comparison a < 0; false on NaN. -/
def JSNum.lt0 : JSNum → Bool
  | .num a => decide (a < 0)
  | .nan => false

/-- A raw localStorage value as seen through
parseInt(getItem(key) or-else the string 0, 10): the key can be absent
(parsed as 0), hold a string parsing to an integer, or hold a
non-numeric string (parsed as NaN). -/
inductive StoredVal where
  | absent : StoredVal
  | numeric : Int → StoredVal
  | nonNumeric : StoredVal
deriving DecidableEq, Repr

/-- parseInt(getItem(key) or-else the string 0, 10). -/
def StoredVal.parseOr0 : StoredVal → JSNum
  | .absent => .num 0
  | .numeric n => .num n
  | .nonNumeric => .nan

/-- The five persisted engine fields read by getInitialState. -/
structure Store where
  accumulated : StoredVal
  startTime : StoredVal
  isRunningRaw : Option String
  pomodoros : StoredVal
  rest : StoredVal
deriving DecidableEq, Repr

/-- getItem of the running flag compared with the literal string true. -/
def parseRunningFlag : Option String → Bool
  | some s => s == "true"
  | none => false

/-- POMODORO_DURATION_SECONDS = 25 * 60. -/
def POMODORO_DURATION_SECONDS : Int := 25 * 60

/-- The record returned by getInitialState. -/
structure InitState where
  pomodoros : JSNum
  seconds : JSNum
  isRunning : Bool
  restMinutes : JSNum
deriving DecidableEq, Repr

/-- getInitialState: reconciles the persisted snapshot with the current
wall clock, clamps a negative total to zero, and seeds the cycle count
to the maximum of the stored count and the count derived from the
reconciled total. -/
def getInitialState (store : Store) (now : Int) : InitState :=
  let savedAccumulated := store.accumulated.parseOr0
  let savedStartTime := store.startTime.parseOr0
  let wasRunning := parseRunningFlag store.isRunningRaw
  let storedPomodoros := store.pomodoros.parseOr0
  let storedRest := store.rest.parseOr0
  let totalAfterElapsed :=
    if wasRunning && savedStartTime.gt0 then
      savedAccumulated.add (((JSNum.num now).sub savedStartTime).floorDivPos 1000)
    else savedAccumulated
  let totalSeconds := if totalAfterElapsed.lt0 then JSNum.num 0 else totalAfterElapsed
  let derivedPomodoros := totalSeconds.floorDivPos POMODORO_DURATION_SECONDS
  { pomodoros := storedPomodoros.maxJS derivedPomodoros,
    seconds := totalSeconds,
    isRunning := wasRunning,
    restMinutes := storedRest }

/-- syncStateFromStorage: the visibility-resume reconciliation. Returns
the new value assigned to totalSeconds, or none when the function
returns without updating (not running, or start timestamp equal to 0).
Note that no clamping is applied on this path. -/
def syncStateFromStorage (store : Store) (now : Int) : Option JSNum :=
  if parseRunningFlag store.isRunningRaw then
    let accumulatedSecondsOnStart := store.accumulated.parseOr0
    let startTime := store.startTime.parseOr0
    if startTime = JSNum.num 0 then none
    else some (accumulatedSecondsOnStart.add
      (((JSNum.num now).sub startTime).floorDivPos 1000))
  else none

/-- The result computed by the gift effect for one cycle-count increase:
rest minutes credited, bonus (super) and normal gift tallies, and the
remaining pending-manual-adjustment counter. -/
structure GiftResult where
  credited : Int
  superGifts : Int
  normalGifts : Int
  pendingRemaining : Int
deriving DecidableEq, Repr

/-- The crediting loop of the gift effect: for i = 1..count the absolute
cycle index startCalc + i is credited long minutes when it is a positive
multiple of 4 and short minutes otherwise. Returns (credited minutes,
super-gift tally, normal-gift tally). -/
def giftLoop (startCalc short long : Int) : Nat → Int × Int × Int
  | 0 => (0, 0, 0)
  | k + 1 =>
    let p := giftLoop startCalc short long k
    let currentPomodoroNumber := startCalc + ((k : Int) + 1)
    if 0 < currentPomodoroNumber ∧ currentPomodoroNumber % 4 = 0 then
      (p.1 + long, p.2.1 + 1, p.2.2)
    else
      (p.1 + short, p.2.1, p.2.2 + 1)

/-- The gift effect body for pomodorosCompleted = current and the
previous ref value = previous: manual pending increases are absorbed
first, the rest are credited through giftLoop, and the pending counter
is clamped at zero. short and long are the normal and bonus reward
minutes (5 and 15 in the fixed-settings build). -/
def applyGiftEffect (previous current pending short long : Int) : GiftResult :=
  if current > previous then
    let totalDiff := current - previous
    let manualCount := min totalDiff pending
    let giftableCount := totalDiff - manualCount
    let pendingRemaining := max 0 (pending - manualCount)
    let startCalc := previous + manualCount
    let l := giftLoop startCalc short long giftableCount.toNat
    { credited := l.1, superGifts := l.2.1, normalGifts := l.2.2,
      pendingRemaining := pendingRemaining }
  else
    { credited := 0, superGifts := 0, normalGifts := 0, pendingRemaining := pending }

/-- The in-memory component state together with the mirrored persisted
fields. All values are integers while the application runs. A
storeStartTime of none models a removed pomodoroStartTime key. -/
structure AppState where
  pomodorosCompleted : Int
  availableRestMinutes : Int
  isRunning : Bool
  totalSeconds : Int
  isResting : Bool
  restSecondsRemaining : Int
  prevPomodoros : Int
  manualUpdatesPending : Int
  storeAccumulated : Int
  storeStartTime : Option Int
  storeIsRunning : Bool
  storePomodoros : Int
  storeRest : Int
deriving DecidableEq, Repr

/-- A reward event emitted by the gift effect: credited minutes and
whether the batch contained a super gift. -/
structure RewardEvent where
  minutes : Int
  isSuper : Bool
deriving DecidableEq, Repr

/-- The cycle-derivation effect: raise pomodorosCompleted to the value
derived from totalSeconds when the derived value is larger. -/
def cycleDerive (a : AppState) : AppState :=
  let completedNow := jsFloorDiv a.totalSeconds POMODORO_DURATION_SECONDS
  if completedNow > a.pomodorosCompleted then
    { a with pomodorosCompleted := completedNow }
  else a

/-- The gift effect as a state transition: persists the cycle count,
applies the reward ledger when the count increased, updates the pending
counter and the previous-count ref, and emits at most one reward
event. -/
def giftStep (a : AppState) : AppState × Option RewardEvent :=
  let previous := a.prevPomodoros
  let current := a.pomodorosCompleted
  let r := applyGiftEffect previous current a.manualUpdatesPending 5 15
  let base := { a with storePomodoros := current,
                       manualUpdatesPending := r.pendingRemaining,
                       prevPomodoros := current }
  if current > previous ∧ r.credited > 0 then
    ({ base with availableRestMinutes := a.availableRestMinutes + r.credited,
                 storeRest := a.availableRestMinutes + r.credited },
     some { minutes := r.credited, isSuper := decide (r.superGifts > 0) })
  else (base, none)

/-- The two effects that re-establish the derived invariants after any
handler runs: cycle derivation followed by the gift effect. -/
def stabilize (a : AppState) : AppState × Option RewardEvent :=
  giftStep (cycleDerive a)

/-- handleStartResume: commit the accumulated total, stamp a fresh start
timestamp and set the running flag. -/
def handleStartResume (now : Int) (a : AppState) : AppState :=
  { a with storeAccumulated := a.totalSeconds,
           storeStartTime := some now,
           storeIsRunning := true,
           isRunning := true }

/-- handlePause: sync the cycle count with the derived value, commit the
accumulated total, clear the start timestamp and clear the running
flag. -/
def handlePause (a : AppState) : AppState :=
  let completedNow := jsFloorDiv a.totalSeconds POMODORO_DURATION_SECONDS
  { a with pomodorosCompleted := max a.pomodorosCompleted completedNow,
           storeAccumulated := a.totalSeconds,
           storeIsRunning := false,
           storeStartTime := none,
           isRunning := false }

/-- handleResetTimer: zero the elapsed total and its persisted copy. -/
def handleResetTimer (a : AppState) : AppState :=
  { a with totalSeconds := 0, storeAccumulated := 0, storeStartTime := none }

/-- handleResetPomodoros: keep only the progress into the current cycle,
zero the cycle count and the pending counter, and re-anchor the start
timestamp when running. The JavaScript remainder operator truncates
toward zero, which is Int.tmod. -/
def handleResetPomodoros (now : Int) (a : AppState) : AppState :=
  let newTotalSeconds := Int.tmod a.totalSeconds POMODORO_DURATION_SECONDS
  { a with totalSeconds := newTotalSeconds,
           pomodorosCompleted := 0,
           manualUpdatesPending := 0,
           storeAccumulated := newTotalSeconds,
           storeStartTime := if a.isRunning then some now else a.storeStartTime }

/-- handleResetRestMinutes: zero the rest balance. -/
def handleResetRestMinutes (a : AppState) : AppState :=
  { a with availableRestMinutes := 0, storeRest := 0 }

/-- handleUseRest: no-op while already resting; otherwise pause the
focus timer when it is running, enter the resting state, and either
spend the whole positive balance or borrow 5 minutes. The returned flag
records whether the borrow notification was shown. -/
def handleUseRest (a : AppState) : AppState × Bool :=
  if a.isResting then (a, false) else
  let a1 := if a.isRunning then handlePause a else a
  let a2 := { a1 with isResting := true }
  if a2.availableRestMinutes > 0 then
    ({ a2 with restSecondsRemaining := a2.availableRestMinutes * 60,
               availableRestMinutes := 0,
               storeRest := 0 }, false)
  else
    ({ a2 with restSecondsRemaining := 5 * 60,
               availableRestMinutes := a2.availableRestMinutes - 5,
               storeRest := a2.availableRestMinutes - 5 }, true)

/-- handlePauseRest: end the rest session, refunding the ceiling of the
remaining minutes when positive and forfeiting the floor when not
positive; a zero adjustment changes nothing and shows no notification.
The returned flag records whether an adjustment notification was
shown. -/
def handlePauseRest (a : AppState) : AppState × Bool :=
  let adjustmentMinutes :=
    if a.restSecondsRemaining > 0 then jsCeilDiv a.restSecondsRemaining 60
    else jsFloorDiv a.restSecondsRemaining 60
  if adjustmentMinutes ≠ 0 then
    ({ a with availableRestMinutes := a.availableRestMinutes + adjustmentMinutes,
              storeRest := a.availableRestMinutes + adjustmentMinutes,
              isResting := false,
              restSecondsRemaining := 0 }, true)
  else
    ({ a with isResting := false, restSecondsRemaining := 0 }, false)

/-- handleAddPomodoro: flag one manual update, increment the cycle
count, add one cycle length to the total, and re-anchor the start
timestamp when running. -/
def handleAddPomodoro (now : Int) (a : AppState) : AppState :=
  let newTotal := a.totalSeconds + POMODORO_DURATION_SECONDS
  { a with manualUpdatesPending := a.manualUpdatesPending + 1,
           pomodorosCompleted := a.pomodorosCompleted + 1,
           totalSeconds := newTotal,
           storeAccumulated := newTotal,
           storeStartTime := if a.isRunning then some now else a.storeStartTime }

/-- handleRemovePomodoro: when the count is positive, decrement it,
remove one cycle length from the total (clamped at zero) and re-anchor
the start timestamp when running. -/
def handleRemovePomodoro (now : Int) (a : AppState) : AppState :=
  if a.pomodorosCompleted > 0 then
    let newSeconds := max 0 (a.totalSeconds - POMODORO_DURATION_SECONDS)
    { a with pomodorosCompleted := a.pomodorosCompleted - 1,
             totalSeconds := newSeconds,
             storeAccumulated := newSeconds,
             storeStartTime := if a.isRunning then some now else a.storeStartTime }
  else a

/-- handleAddRestMinutes. -/
def handleAddRestMinutes (minutes : Int) (a : AppState) : AppState :=
  if minutes > 0 then
    { a with availableRestMinutes := a.availableRestMinutes + minutes,
             storeRest := a.availableRestMinutes + minutes }
  else a

/-- handleRemoveRestMinutes. -/
def handleRemoveRestMinutes (minutes : Int) (a : AppState) : AppState :=
  if minutes > 0 then
    { a with availableRestMinutes := a.availableRestMinutes - minutes,
             storeRest := a.availableRestMinutes - minutes }
  else a

/-- The mirrored persisted fields of an application state, viewed as a
raw store (all values numeric; a cleared start timestamp is an absent
key). -/
def storeOf (a : AppState) : Store :=
  { accumulated := .numeric a.storeAccumulated,
    startTime := match a.storeStartTime with
      | some t => .numeric t
      | none => .absent,
    isRunningRaw := some (if a.storeIsRunning then "true" else "false"),
    pomodoros := .numeric a.storePomodoros,
    rest := .numeric a.storeRest }

/-- The visibility-resume handler: recompute totalSeconds from the
persisted checkpoint through syncStateFromStorage. -/
def handleVisSync (now : Int) (a : AppState) : AppState :=
  match syncStateFromStorage (storeOf a) now with
  | some (.num t) => { a with totalSeconds := t }
  | _ => a

/-- The discrete external events driving the engine. -/
inductive Event where
  | tick : Event
  | restTick : Event
  | startResume : Int → Event
  | pause : Event
  | resetTimer : Event
  | resetPomodoros : Int → Event
  | resetRest : Event
  | useRest : Event
  | endRest : Event
  | addPomodoro : Int → Event
  | removePomodoro : Int → Event
  | addRest : Int → Event
  | removeRest : Int → Event
  | visSync : Int → Event
deriving DecidableEq, Repr

/-- Whether an event is one of the two explicit operator commands that
remove completed cycles (remove-one-cycle, reset-cycles). -/
def Event.isCycleRemoval : Event → Bool
  | .removePomodoro _ => true
  | .resetPomodoros _ => true
  | _ => false

/-- One engine step: the handler of the event (guarded by the UI
availability of its control) followed by the stabilizing effects. A
guarded-out event leaves the state unchanged and emits nothing. -/
def step (e : Event) (a : AppState) : AppState × Option RewardEvent :=
  match e with
  | .tick =>
    if a.isRunning then stabilize { a with totalSeconds := a.totalSeconds + 1 }
    else (a, none)
  | .restTick =>
    if a.isResting then
      stabilize { a with restSecondsRemaining := a.restSecondsRemaining - 1 }
    else (a, none)
  | .startResume now =>
    if a.isResting = false ∧ a.isRunning = false then
      stabilize (handleStartResume now a)
    else (a, none)
  | .pause =>
    if a.isResting = false ∧ a.isRunning = true then stabilize (handlePause a)
    else (a, none)
  | .resetTimer =>
    if a.isRunning = false ∧ a.isResting = false ∧ a.totalSeconds > 0 then
      stabilize (handleResetTimer a)
    else (a, none)
  | .resetPomodoros now => stabilize (handleResetPomodoros now a)
  | .resetRest => stabilize (handleResetRestMinutes a)
  | .useRest =>
    if a.isResting then (a, none) else stabilize (handleUseRest a).1
  | .endRest =>
    if a.isResting then stabilize (handlePauseRest a).1 else (a, none)
  | .addPomodoro now => stabilize (handleAddPomodoro now a)
  | .removePomodoro now => stabilize (handleRemovePomodoro now a)
  | .addRest n => stabilize (handleAddRestMinutes n a)
  | .removeRest n => stabilize (handleRemoveRestMinutes n a)
  | .visSync now =>
    if a.isRunning then stabilize (handleVisSync now a) else (a, none)

/-- Building the mounted component state from the persisted store: the
single state initializer assigns the reconciled values, the
previous-count ref starts equal to the count, no manual update is
pending, and no rest session is active. The mount run of the gift
effect persists the seeded count. Defined when the reconciled values
are numeric. -/
def initAppOfStore (store : Store) (now : Int) : Option AppState :=
  let i := getInitialState store now
  match i.pomodoros, i.seconds, i.restMinutes with
  | .num p, .num s, .num r =>
    some { pomodorosCompleted := p,
           availableRestMinutes := r,
           isRunning := i.isRunning,
           totalSeconds := s,
           isResting := false,
           restSecondsRemaining := 0,
           prevPomodoros := p,
           manualUpdatesPending := 0,
           storeAccumulated := match store.accumulated with
             | .numeric n => n
             | _ => 0,
           storeStartTime := match store.startTime with
             | .numeric n => some n
             | _ => none,
           storeIsRunning := parseRunningFlag store.isRunningRaw,
           storePomodoros := p,
           storeRest := match store.rest with
             | .numeric n => n
             | _ => 0 }
  | _, _, _ => none

/-- The states reachable from a mounted component state through engine
steps. -/
inductive Reachable : AppState → Prop where
  | init (store : Store) (now : Int) (a : AppState) :
      initAppOfStore store now = some a → Reachable a
  | step (a : AppState) (e : Event) :
      Reachable a → Reachable (step e a).1

/-- A store with every persisted key absent (first launch). -/
def emptyStore : Store :=
  { accumulated := .absent, startTime := .absent, isRunningRaw := none,
    pomodoros := .absent, rest := .absent }

/-- The mounted state on first launch: everything zeroed, nothing
running. -/
def app0 : AppState :=
  { pomodorosCompleted := 0, availableRestMinutes := 0, isRunning := false,
    totalSeconds := 0, isResting := false, restSecondsRemaining := 0,
    prevPomodoros := 0, manualUpdatesPending := 0, storeAccumulated := 0,
    storeStartTime := none, storeIsRunning := false, storePomodoros := 0,
    storeRest := 0 }

/-- The state reached from first launch by one manual add-one-cycle
command. -/
def pomodoroOneState : AppState := (step (.addPomodoro 0) app0).1

/-- A fresh state with the focus timer marked running. -/
def runningApp : AppState := { app0 with isRunning := true }

/-- A state in a rest session with the given seconds remaining and rest
balance. -/
def restApp (rest balance : Int) : AppState :=
  { app0 with isResting := true, restSecondsRemaining := rest,
              availableRestMinutes := balance }

/-! Helper lemmas about the effects and handlers. -/

/-- The gift effect leaves the cycle count unchanged. -/
theorem giftStep_pomodorosCompleted (a : AppState) :
    (giftStep a).1.pomodorosCompleted = a.pomodorosCompleted := by
  simp only [giftStep]; split <;> rfl

/-- The gift effect leaves the elapsed total unchanged. -/
theorem giftStep_totalSeconds (a : AppState) :
    (giftStep a).1.totalSeconds = a.totalSeconds := by
  simp only [giftStep]; split <;> rfl

/-- The gift effect leaves the running flag unchanged. -/
theorem giftStep_isRunning (a : AppState) :
    (giftStep a).1.isRunning = a.isRunning := by
  simp only [giftStep]; split <;> rfl

/-- The gift effect leaves the resting flag unchanged. -/
theorem giftStep_isResting (a : AppState) :
    (giftStep a).1.isResting = a.isResting := by
  simp only [giftStep]; split <;> rfl

/-- The gift effect leaves the rest countdown unchanged. -/
theorem giftStep_restSecondsRemaining (a : AppState) :
    (giftStep a).1.restSecondsRemaining = a.restSecondsRemaining := by
  simp only [giftStep]; split <;> rfl

/-- The gift effect leaves the persisted accumulated total unchanged. -/
theorem giftStep_storeAccumulated (a : AppState) :
    (giftStep a).1.storeAccumulated = a.storeAccumulated := by
  simp only [giftStep]; split <;> rfl

/-- The gift effect leaves the persisted start timestamp unchanged. -/
theorem giftStep_storeStartTime (a : AppState) :
    (giftStep a).1.storeStartTime = a.storeStartTime := by
  simp only [giftStep]; split <;> rfl

/-- The gift effect leaves the persisted running flag unchanged. -/
theorem giftStep_storeIsRunning (a : AppState) :
    (giftStep a).1.storeIsRunning = a.storeIsRunning := by
  simp only [giftStep]; split <;> rfl

/-- The gift effect persists the current cycle count. -/
theorem giftStep_storePomodoros (a : AppState) :
    (giftStep a).1.storePomodoros = a.pomodorosCompleted := by
  simp only [giftStep]; split <;> rfl

/-- Cycle derivation never lowers the cycle count. -/
theorem cycleDerive_pomodoros_le (a : AppState) :
    a.pomodorosCompleted ≤ (cycleDerive a).pomodorosCompleted := by
  simp only [cycleDerive]; split
  · next h => exact le_of_lt h
  · exact le_refl _

/-- Cycle derivation leaves the elapsed total unchanged. -/
theorem cycleDerive_totalSeconds (a : AppState) :
    (cycleDerive a).totalSeconds = a.totalSeconds := by
  simp only [cycleDerive]; split <;> rfl

/-- Cycle derivation leaves the rest balance unchanged. -/
theorem cycleDerive_availableRestMinutes (a : AppState) :
    (cycleDerive a).availableRestMinutes = a.availableRestMinutes := by
  simp only [cycleDerive]; split <;> rfl

/-- Cycle derivation leaves the running flag unchanged. -/
theorem cycleDerive_isRunning (a : AppState) :
    (cycleDerive a).isRunning = a.isRunning := by
  simp only [cycleDerive]; split <;> rfl

/-- Cycle derivation leaves the resting flag unchanged. -/
theorem cycleDerive_isResting (a : AppState) :
    (cycleDerive a).isResting = a.isResting := by
  simp only [cycleDerive]; split <;> rfl

/-- Cycle derivation leaves the rest countdown unchanged. -/
theorem cycleDerive_restSecondsRemaining (a : AppState) :
    (cycleDerive a).restSecondsRemaining = a.restSecondsRemaining := by
  simp only [cycleDerive]; split <;> rfl

/-- Cycle derivation leaves the persisted accumulated total unchanged. -/
theorem cycleDerive_storeAccumulated (a : AppState) :
    (cycleDerive a).storeAccumulated = a.storeAccumulated := by
  simp only [cycleDerive]; split <;> rfl

/-- Cycle derivation leaves the persisted start timestamp unchanged. -/
theorem cycleDerive_storeStartTime (a : AppState) :
    (cycleDerive a).storeStartTime = a.storeStartTime := by
  simp only [cycleDerive]; split <;> rfl

/-- Cycle derivation leaves the persisted running flag unchanged. -/
theorem cycleDerive_storeIsRunning (a : AppState) :
    (cycleDerive a).storeIsRunning = a.storeIsRunning := by
  simp only [cycleDerive]; split <;> rfl

/-- Stabilizing never lowers the cycle count. -/
theorem stabilize_pomodoros_le (a : AppState) :
    a.pomodorosCompleted ≤ (stabilize a).1.pomodorosCompleted := by
  simp only [stabilize, giftStep_pomodorosCompleted]
  exact cycleDerive_pomodoros_le a

/-- Stabilizing preserves the running flag. -/
theorem stabilize_isRunning (a : AppState) :
    (stabilize a).1.isRunning = a.isRunning := by
  simp only [stabilize, giftStep_isRunning, cycleDerive_isRunning]

/-- Stabilizing preserves the resting flag. -/
theorem stabilize_isResting (a : AppState) :
    (stabilize a).1.isResting = a.isResting := by
  simp only [stabilize, giftStep_isResting, cycleDerive_isResting]

/-- Stabilizing preserves the elapsed total. -/
theorem stabilize_totalSeconds (a : AppState) :
    (stabilize a).1.totalSeconds = a.totalSeconds := by
  simp only [stabilize, giftStep_totalSeconds, cycleDerive_totalSeconds]

/-- Stabilizing preserves the rest countdown. -/
theorem stabilize_restSecondsRemaining (a : AppState) :
    (stabilize a).1.restSecondsRemaining = a.restSecondsRemaining := by
  simp only [stabilize, giftStep_restSecondsRemaining, cycleDerive_restSecondsRemaining]

/-- Stabilizing preserves the persisted accumulated total. -/
theorem stabilize_storeAccumulated (a : AppState) :
    (stabilize a).1.storeAccumulated = a.storeAccumulated := by
  simp only [stabilize, giftStep_storeAccumulated, cycleDerive_storeAccumulated]

/-- Stabilizing preserves the persisted start timestamp. -/
theorem stabilize_storeStartTime (a : AppState) :
    (stabilize a).1.storeStartTime = a.storeStartTime := by
  simp only [stabilize, giftStep_storeStartTime, cycleDerive_storeStartTime]

/-- Stabilizing preserves the persisted running flag. -/
theorem stabilize_storeIsRunning (a : AppState) :
    (stabilize a).1.storeIsRunning = a.storeIsRunning := by
  simp only [stabilize, giftStep_storeIsRunning, cycleDerive_storeIsRunning]

/-- On a state whose cycle count already dominates the derived count and
whose previous-count ref is caught up, stabilizing only persists the
count and emits no reward event. -/
theorem stabilize_eq_of_stable (a : AppState)
    (hprev : a.prevPomodoros = a.pomodorosCompleted)
    (hder : jsFloorDiv a.totalSeconds POMODORO_DURATION_SECONDS ≤ a.pomodorosCompleted) :
    stabilize a = ({ a with storePomodoros := a.pomodorosCompleted }, none) := by
  have hc : cycleDerive a = a := by
    simp only [cycleDerive]
    rw [if_neg (by omega)]
  have hr : applyGiftEffect a.prevPomodoros a.pomodorosCompleted a.manualUpdatesPending 5 15
      = { credited := 0, superGifts := 0, normalGifts := 0,
          pendingRemaining := a.manualUpdatesPending } := by
    simp only [applyGiftEffect]
    rw [if_neg (by omega)]
  simp only [stabilize, hc, giftStep, hr]
  rw [if_neg (by simp)]
  simp [hprev]

/-- The credited minutes of the gift loop equal the sum, over the
evaluated indices 1..count, of the per-index credit (long at a positive
multiple of 4, short otherwise). -/
theorem giftLoop_credited_eq_sum (startCalc short long : Int) :
    ∀ count : Nat, (giftLoop startCalc short long count).1
      = ∑ i ∈ Finset.Icc 1 count,
          (if 0 < startCalc + (i : Int) ∧ (startCalc + (i : Int)) % 4 = 0
           then long else short)
  | 0 => by simp [giftLoop]
  | k + 1 => by
    rw [Finset.sum_Icc_succ_top (by omega : (1 : Nat) ≤ k + 1),
      ← giftLoop_credited_eq_sum startCalc short long k]
    simp only [giftLoop]
    push_cast
    split <;> simp

/-- When the whole count increase is absorbed by pending manual
adjustments (in particular when the count did not increase), the gift
effect emits no reward event and credits no minutes. -/
theorem giftStep_no_credit (a : AppState)
    (h : a.pomodorosCompleted - a.prevPomodoros ≤ a.manualUpdatesPending) :
    (giftStep a).2 = none
      ∧ (giftStep a).1.availableRestMinutes = a.availableRestMinutes := by
  by_cases hc : a.pomodorosCompleted > a.prevPomodoros
  · have hm : min (a.pomodorosCompleted - a.prevPomodoros) a.manualUpdatesPending
        = a.pomodorosCompleted - a.prevPomodoros := by omega
    have hr : applyGiftEffect a.prevPomodoros a.pomodorosCompleted
        a.manualUpdatesPending 5 15
        = { credited := 0, superGifts := 0, normalGifts := 0,
            pendingRemaining := max 0 (a.manualUpdatesPending
              - (a.pomodorosCompleted - a.prevPomodoros)) } := by
      simp only [applyGiftEffect, if_pos hc, hm]
      simp [giftLoop]
    refine ⟨?_, ?_⟩ <;> · simp only [giftStep, hr]; rw [if_neg (by simp)]
  · have hr : applyGiftEffect a.prevPomodoros a.pomodorosCompleted
        a.manualUpdatesPending 5 15
        = { credited := 0, superGifts := 0, normalGifts := 0,
            pendingRemaining := a.manualUpdatesPending } := by
      simp only [applyGiftEffect]
      rw [if_neg hc]
    refine ⟨?_, ?_⟩ <;> · simp only [giftStep, hr]; rw [if_neg (by simp)]

/-- Components of a state built by initAppOfStore: the previous-count
ref starts equal to the count, no manual update is pending, and no rest
session is active. -/
theorem initAppOfStore_fields (store : Store) (now : Int) (a : AppState)
    (h : initAppOfStore store now = some a) :
    a.prevPomodoros = a.pomodorosCompleted
      ∧ a.manualUpdatesPending = 0
      ∧ a.isResting = false := by
  simp only [initAppOfStore] at h
  split at h
  · rw [Option.some.injEq] at h
    subst h
    exact ⟨rfl, rfl, rfl⟩
  · exact absurd h (by simp)

/-- Ending a rest session does not change the cycle count. -/
theorem handlePauseRest_pomodoros (a : AppState) :
    (handlePauseRest a).1.pomodorosCompleted = a.pomodorosCompleted := by
  simp only [handlePauseRest]
  split_ifs <;> rfl

/-- The visibility-resume handler does not change the cycle count. -/
theorem handleVisSync_pomodoros (now : Int) (a : AppState) :
    (handleVisSync now a).pomodorosCompleted = a.pomodorosCompleted := by
  simp only [handleVisSync]
  split <;> rfl

/-- Starting a rest session never lowers the cycle count. -/
theorem handleUseRest_pomodoros_le (a : AppState) :
    a.pomodorosCompleted ≤ (handleUseRest a).1.pomodorosCompleted := by
  simp only [handleUseRest, handlePause]
  split_ifs <;> simp

/-- Ending a rest session always leaves the resting flag cleared. -/
theorem handlePauseRest_isResting (a : AppState) :
    (handlePauseRest a).1.isResting = false := by
  simp only [handlePauseRest]
  split_ifs <;> rfl

/-- Ending a rest session leaves the running flag unchanged. -/
theorem handlePauseRest_isRunning (a : AppState) :
    (handlePauseRest a).1.isRunning = a.isRunning := by
  simp only [handlePauseRest]
  split_ifs <;> rfl

/-- The visibility-resume handler leaves the running flag unchanged. -/
theorem handleVisSync_isRunning (now : Int) (a : AppState) :
    (handleVisSync now a).isRunning = a.isRunning := by
  simp only [handleVisSync]
  split <;> rfl

/-- The visibility-resume handler leaves the resting flag unchanged. -/
theorem handleVisSync_isResting (now : Int) (a : AppState) :
    (handleVisSync now a).isResting = a.isResting := by
  simp only [handleVisSync]
  split <;> rfl

/-- Starting a rest session from a non-resting state always leaves the
focus timer not running. -/
theorem handleUseRest_isRunning_false (a : AppState) (ha : a.isResting = false) :
    (handleUseRest a).1.isRunning = false := by
  simp only [handleUseRest, handlePause]
  rw [if_neg (by simp [ha])]
  by_cases hr : a.isRunning
  · rw [if_pos hr]
    split_ifs <;> rfl
  · rw [if_neg hr]
    split_ifs <;> simpa using hr

/-- One step preserves the mutual-exclusion invariant of the two
timers. -/
theorem step_preserves_exclusion (e : Event) (a : AppState)
    (h : a.isRunning = true → a.isResting = false) :
    (step e a).1.isRunning = true → (step e a).1.isResting = false := by
  cases e with
  | tick =>
    simp only [step]
    split
    · intro hh
      rw [stabilize_isRunning] at hh
      rw [stabilize_isResting]
      exact h hh
    · exact h
  | restTick =>
    simp only [step]
    split
    · intro hh
      rw [stabilize_isRunning] at hh
      rw [stabilize_isResting]
      exact h hh
    · exact h
  | startResume now =>
    simp only [step]
    split
    · next hg =>
      intro _
      rw [stabilize_isResting]
      exact hg.1
    · exact h
  | pause =>
    simp only [step]
    split
    · intro hh
      rw [stabilize_isRunning] at hh
      exact absurd hh (by simp [handlePause])
    · exact h
  | resetTimer =>
    simp only [step]
    split
    · intro hh
      rw [stabilize_isRunning] at hh
      rw [stabilize_isResting]
      exact h hh
    · exact h
  | resetPomodoros now =>
    simp only [step]
    intro hh
    rw [stabilize_isRunning] at hh
    rw [stabilize_isResting]
    exact h hh
  | resetRest =>
    simp only [step]
    intro hh
    rw [stabilize_isRunning] at hh
    rw [stabilize_isResting]
    exact h hh
  | useRest =>
    simp only [step]
    split
    · exact h
    · next hc =>
      intro hh
      rw [stabilize_isRunning,
        handleUseRest_isRunning_false a (by simpa using hc)] at hh
      cases hh
  | endRest =>
    simp only [step]
    split
    · intro _
      rw [stabilize_isResting]
      exact handlePauseRest_isResting a
    · exact h
  | addPomodoro now =>
    simp only [step]
    intro hh
    rw [stabilize_isRunning] at hh
    rw [stabilize_isResting]
    exact h hh
  | removePomodoro now =>
    simp only [step]
    intro hh
    rw [stabilize_isRunning] at hh
    rw [stabilize_isResting]
    by_cases hp : a.pomodorosCompleted > 0
    · simp only [handleRemovePomodoro, if_pos hp] at hh ⊢
      exact h hh
    · simp only [handleRemovePomodoro, if_neg hp] at hh ⊢
      exact h hh
  | addRest n =>
    simp only [step]
    intro hh
    rw [stabilize_isRunning] at hh
    rw [stabilize_isResting]
    by_cases hn : n > 0
    · simp only [handleAddRestMinutes, if_pos hn] at hh ⊢
      exact h hh
    · simp only [handleAddRestMinutes, if_neg hn] at hh ⊢
      exact h hh
  | removeRest n =>
    simp only [step]
    intro hh
    rw [stabilize_isRunning] at hh
    rw [stabilize_isResting]
    by_cases hn : n > 0
    · simp only [handleRemoveRestMinutes, if_pos hn] at hh ⊢
      exact h hh
    · simp only [handleRemoveRestMinutes, if_neg hn] at hh ⊢
      exact h hh
  | visSync now =>
    simp only [step]
    split
    · intro hh
      rw [stabilize_isRunning, handleVisSync_isRunning] at hh
      rw [stabilize_isResting, handleVisSync_isResting]
      exact h hh
    · exact h

/-- Starting a rest session while the focus timer runs first performs
the pause transition: the accumulated total is committed, the start
timestamp cleared, the persisted running flag cleared, and the session
enters the resting state. -/
theorem handleUseRest_commits (a : AppState) (ha : a.isResting = false)
    (hr : a.isRunning = true) :
    (handleUseRest a).1.isResting = true
      ∧ (handleUseRest a).1.storeAccumulated = a.totalSeconds
      ∧ (handleUseRest a).1.storeStartTime = none
      ∧ (handleUseRest a).1.storeIsRunning = false := by
  simp only [handleUseRest, handlePause]
  rw [if_neg (by simp [ha]), if_pos hr]
  split_ifs <;> exact ⟨rfl, rfl, rfl, rfl⟩

/-- Starting a rest session from a non-resting state enters the resting
state. -/
theorem handleUseRest_isResting_true (a : AppState) (ha : a.isResting = false) :
    (handleUseRest a).1.isResting = true := by
  simp only [handleUseRest, handlePause]
  rw [if_neg (by simp [ha])]
  split_ifs <;> rfl

/-- The session length and balance updates of handleUseRest: a positive
balance is spent whole (session = balance * 60 seconds, balance zeroed),
otherwise 5 minutes are borrowed (session = 300 seconds, balance
decremented by 5). -/
theorem handleUseRest_effects (a : AppState) (ha : a.isResting = false) :
    (0 < a.availableRestMinutes →
        (handleUseRest a).1.restSecondsRemaining = a.availableRestMinutes * 60
        ∧ (handleUseRest a).1.availableRestMinutes = 0)
    ∧ (a.availableRestMinutes ≤ 0 →
        (handleUseRest a).1.restSecondsRemaining = 300
        ∧ (handleUseRest a).1.availableRestMinutes = a.availableRestMinutes - 5) := by
  simp only [handleUseRest, handlePause]
  rw [if_neg (by simp [ha])]
  split_ifs <;> constructor <;> intro h <;> simp_all <;> omega

/-- handleUseRest keeps the previous-count ref equal to the count and
the count at least the derived count, and leaves the pending counter
unchanged. -/
theorem handleUseRest_stable (a : AppState) (ha : a.isResting = false)
    (hprev : a.prevPomodoros = a.pomodorosCompleted)
    (hder : jsFloorDiv a.totalSeconds POMODORO_DURATION_SECONDS
      ≤ a.pomodorosCompleted) :
    (handleUseRest a).1.prevPomodoros = (handleUseRest a).1.pomodorosCompleted
    ∧ jsFloorDiv (handleUseRest a).1.totalSeconds POMODORO_DURATION_SECONDS
        ≤ (handleUseRest a).1.pomodorosCompleted := by
  simp only [handleUseRest, handlePause]
  rw [if_neg (by simp [ha])]
  split_ifs <;> constructor <;> simp <;> omega

/-- Ending a rest session leaves the previous-count ref unchanged. -/
theorem handlePauseRest_prevPomodoros (a : AppState) :
    (handlePauseRest a).1.prevPomodoros = a.prevPomodoros := by
  simp only [handlePauseRest]
  split_ifs <;> rfl

/-- Ending a rest session leaves the elapsed total unchanged. -/
theorem handlePauseRest_totalSeconds (a : AppState) :
    (handlePauseRest a).1.totalSeconds = a.totalSeconds := by
  simp only [handlePauseRest]
  split_ifs <;> rfl

/-- Ending a rest session at exactly 300 seconds remaining refunds 5
minutes. -/
theorem handlePauseRest_at_300 (a : AppState) (h : a.restSecondsRemaining = 300) :
    (handlePauseRest a).1.availableRestMinutes = a.availableRestMinutes + 5 := by
  have hadj : (if a.restSecondsRemaining > 0 then jsCeilDiv a.restSecondsRemaining 60
      else jsFloorDiv a.restSecondsRemaining 60) = 5 := by
    rw [if_pos (by omega), h]
    decide
  simp only [handlePauseRest, hadj]
  norm_num

/-- The cycle length evaluates to 1500 seconds. -/
theorem pomodoro_duration_eq : POMODORO_DURATION_SECONDS = 1500 := by
  norm_num [POMODORO_DURATION_SECONDS]

/-- Floor division by the cycle length is Euclidean division by 1500. -/
theorem jsFloorDiv_duration (x : Int) :
    jsFloorDiv x POMODORO_DURATION_SECONDS = x / 1500 := by
  rw [jsFloorDiv, pomodoro_duration_eq, Int.fdiv_eq_ediv x (by norm_num)]

/-- Reloading a snapshot whose running flag does not parse as true
seeds the stored cycle count when it dominates the derived count. -/
theorem reload_pomodoros_not_running (sa sp sr now : Int) (stv : StoredVal)
    (flag : Option String) (hflag : parseRunningFlag flag = false)
    (hsa : 0 ≤ sa) (hsp : sa / 1500 ≤ sp) :
    (getInitialState
        { accumulated := .numeric sa, startTime := stv, isRunningRaw := flag,
          pomodoros := .numeric sp, rest := .numeric sr } now).pomodoros
      = .num sp := by
  simp only [getInitialState, StoredVal.parseOr0, hflag, Bool.false_and, if_false,
    Bool.false_eq_true, JSNum.lt0, JSNum.floorDivPos, JSNum.maxJS]
  rw [if_neg (by simp; omega)]
  simp only [JSNum.floorDivPos, JSNum.maxJS, JSNum.num.injEq, jsFloorDiv_duration]
  omega

/-- Reloading a snapshot persisted while running with a start timestamp
equal to the reload instant adds no elapsed time and seeds the stored
cycle count when it dominates the derived count. -/
theorem reload_pomodoros_running_fresh (sa sp sr now : Int)
    (hsa : 0 ≤ sa) (hsp : sa / 1500 ≤ sp) :
    (getInitialState
        { accumulated := .numeric sa, startTime := .numeric now,
          isRunningRaw := some "true", pomodoros := .numeric sp,
          rest := .numeric sr } now).pomodoros
      = .num sp := by
  have hz : jsFloorDiv (now - now) 1000 = 0 := by
    simp [jsFloorDiv, Int.zero_fdiv]
  simp only [getInitialState, StoredVal.parseOr0, parseRunningFlag, JSNum.gt0,
    JSNum.add, JSNum.sub, JSNum.floorDivPos, JSNum.maxJS, JSNum.lt0, hz, add_zero,
    ite_self]
  rw [if_neg (by simp; omega)]
  simp only [JSNum.floorDivPos, JSNum.maxJS, JSNum.num.injEq, jsFloorDiv_duration]
  omega

/-- On a numeric snapshot persisted while running with a positive start
timestamp, the seeded cycle count is the maximum of the stored count and
the count derived from the clamped reconciled total. -/
theorem getInitialState_seeds_max :
    ∀ sa st sp sr now : Int, 0 < st →
      (getInitialState
          { accumulated := .numeric sa, startTime := .numeric st,
            isRunningRaw := some "true", pomodoros := .numeric sp,
            rest := .numeric sr } now).pomodoros
        = JSNum.num (max sp (jsFloorDiv (max 0 (sa + jsFloorDiv (now - st) 1000))
            POMODORO_DURATION_SECONDS)) := by
  intro sa st sp sr now h
  unfold getInitialState
  simp only [StoredVal.parseOr0, parseRunningFlag, JSNum.gt0, JSNum.lt0, JSNum.add,
    JSNum.sub, JSNum.floorDivPos, JSNum.maxJS]
  split_ifs with h1 h2 h2 <;>
    simp only [decide_eq_true_eq, Bool.and_eq_true, beq_self_eq_true, true_and] at h1 h2 <;>
    simp only [JSNum.maxJS, JSNum.num.injEq]
  · rw [max_eq_left (le_of_lt h2), jsFloorDiv, Int.zero_fdiv]
  · rw [max_eq_right (not_lt.mp h2)]
  · exact absurd h h1
  · exact absurd h h1

/-! Claim theorems. -/

/-- C1: At initialization, the engine seeds the completed-cycle count to
the maximum of the stored count and the count derived from the
reconciled elapsed seconds divided by the cycle length, and this seeding
emits no reward event and credits no rest minutes. For the snapshot
with accumulatedFocusSeconds = 1500, completedCycles = 1, persisted
while running with a start timestamp implying 1500 further elapsed
seconds, reload seeds completedCycles = 2. -/
theorem c1_reload_seeding :
    (∀ sa st sp sr now : Int, 0 < st →
      (getInitialState
          { accumulated := .numeric sa, startTime := .numeric st,
            isRunningRaw := some "true", pomodoros := .numeric sp,
            rest := .numeric sr } now).pomodoros
        = JSNum.num (max sp (jsFloorDiv (max 0 (sa + jsFloorDiv (now - st) 1000))
            POMODORO_DURATION_SECONDS)))
    ∧ getInitialState
        { accumulated := .numeric 1500, startTime := .numeric 1000000,
          isRunningRaw := some "true", pomodoros := .numeric 1,
          rest := .numeric 0 } 2500000
      = { pomodoros := .num 2, seconds := .num 3000, isRunning := true,
          restMinutes := .num 0 }
    ∧ (∀ (store : Store) (now : Int) (a : AppState),
        initAppOfStore store now = some a →
        (giftStep a).2 = none
          ∧ (giftStep a).1.availableRestMinutes = a.availableRestMinutes) := by
  refine ⟨getInitialState_seeds_max, by decide, ?_⟩
  intro store now a h
  obtain ⟨h1, h2, -⟩ := initAppOfStore_fields store now a h
  exact giftStep_no_credit a (by omega)

/-- Witness for C1 at the concrete reload snapshot of the claim. -/
theorem c1_reload_seeding_witness :
    (getInitialState
        { accumulated := .numeric 1500, startTime := .numeric 1000000,
          isRunningRaw := some "true", pomodoros := .numeric 1,
          rest := .numeric 0 } 2500000).pomodoros
      = JSNum.num (max 1 (jsFloorDiv (max 0 (1500 + jsFloorDiv (2500000 - 1000000) 1000))
          POMODORO_DURATION_SECONDS)) :=
  c1_reload_seeding.1 1500 1000000 1 0 2500000 (by decide)

/-- C2: In every reward-ledger application with an increased count, each
giftable cycle is evaluated at absolute index
previousCycles + manualCount + i for i in 1..giftableCount; an index
that is a positive multiple of 4 credits the bonus reward, every other
index credits the normal reward. In particular previousCycles = 2,
newCycles = 5, pending = 0 evaluates indices 3, 4, 5 and credits
normal + bonus + normal. -/
theorem c2_bonus_placement :
    (∀ previous current pending short long : Int,
        previous < current →
        (applyGiftEffect previous current pending short long).credited
          = ∑ i ∈ Finset.Icc 1 (current - previous
                - min (current - previous) pending).toNat,
              (if 0 < previous + min (current - previous) pending + (i : Int)
                  ∧ (previous + min (current - previous) pending + (i : Int)) % 4 = 0
               then long else short))
    ∧ (∀ short long : Int,
        applyGiftEffect 2 5 0 short long
          = { credited := short + long + short, superGifts := 1, normalGifts := 2,
              pendingRemaining := 0 }) := by
  constructor
  · intro previous current pending short long h
    simp only [applyGiftEffect, if_pos h]
    exact giftLoop_credited_eq_sum _ _ _ _
  · intro short long
    show applyGiftEffect 2 5 0 short long = _
    norm_num [applyGiftEffect, giftLoop]

/-- Witness for C2 at the concrete ledger application of the claim. -/
theorem c2_bonus_placement_witness :
    (applyGiftEffect 2 5 0 5 15).credited = 25 := by
  have h := c2_bonus_placement.1 2 5 0 5 15 (by decide)
  rw [h]
  decide

/-- C3: For every cycle-count increase with pending manual adjustments,
the ledger absorbs min(totalDelta, pending) increases without crediting
them and leaves pendingRemaining = pending - manualCount; with
pending = 1, previousCycles = 3, newCycles = 4 it credits zero rest
minutes, emits no reward event, and leaves pendingRemaining = 0. -/
theorem c3_manual_exclusion :
    (∀ previous current pending short long : Int,
        previous < current → 0 ≤ pending →
        (applyGiftEffect previous current pending short long).pendingRemaining
          = pending - min (current - previous) pending)
    ∧ (∀ a : AppState,
        a.pomodorosCompleted - a.prevPomodoros ≤ a.manualUpdatesPending →
        (giftStep a).2 = none
          ∧ (giftStep a).1.availableRestMinutes = a.availableRestMinutes)
    ∧ applyGiftEffect 3 4 1 5 15
        = { credited := 0, superGifts := 0, normalGifts := 0, pendingRemaining := 0 } := by
  refine ⟨?_, ?_, by decide⟩
  · intro previous current pending short long h hp
    simp only [applyGiftEffect, if_pos h]
    omega
  · intro a h
    exact giftStep_no_credit a h

/-- Witness for C3 at the concrete ledger application of the claim. -/
theorem c3_manual_exclusion_witness :
    (applyGiftEffect 3 4 1 5 15).pendingRemaining = 1 - min (4 - 3) 1 :=
  c3_manual_exclusion.1 3 4 1 5 15 (by decide) (by decide)

/-- C4: For every end-rest command, a positive seconds-remaining value
refunds its ceiling in minutes, a non-positive one forfeits its floor in
minutes, and a remaining value of exactly zero changes the balance by
nothing and shows no notification. -/
theorem c4_end_rest_rounding :
    ∀ a : AppState,
      (0 < a.restSecondsRemaining →
        (handlePauseRest a).1.availableRestMinutes
          = a.availableRestMinutes + jsCeilDiv a.restSecondsRemaining 60)
      ∧ (a.restSecondsRemaining ≤ 0 →
        (handlePauseRest a).1.availableRestMinutes
          = a.availableRestMinutes + jsFloorDiv a.restSecondsRemaining 60)
      ∧ (a.restSecondsRemaining = 0 →
        (handlePauseRest a).1.availableRestMinutes = a.availableRestMinutes
          ∧ (handlePauseRest a).2 = false) := by
  intro a
  have hfd : ∀ x : Int, Int.fdiv x 60 = x / 60 := fun x =>
    Int.fdiv_eq_ediv x (by norm_num)
  refine ⟨?_, ?_, ?_⟩
  · intro h
    have hne : (if a.restSecondsRemaining > 0 then jsCeilDiv a.restSecondsRemaining 60
        else jsFloorDiv a.restSecondsRemaining 60) ≠ 0 := by
      rw [if_pos h]
      simp only [jsCeilDiv, hfd]
      omega
    simp only [handlePauseRest, if_pos hne]
    rw [if_pos h]
  · intro h
    by_cases h0 : a.restSecondsRemaining = 0
    · have hz : (if a.restSecondsRemaining > 0 then jsCeilDiv a.restSecondsRemaining 60
          else jsFloorDiv a.restSecondsRemaining 60) = 0 := by
        rw [if_neg (by omega)]
        simp only [jsFloorDiv, hfd, h0]
        norm_num
      simp only [handlePauseRest, hz]
      norm_num
      simp only [jsFloorDiv, hfd, h0]
      norm_num
    · have hne : (if a.restSecondsRemaining > 0 then jsCeilDiv a.restSecondsRemaining 60
          else jsFloorDiv a.restSecondsRemaining 60) ≠ 0 := by
        rw [if_neg (by omega)]
        simp only [jsFloorDiv, hfd]
        omega
      simp only [handlePauseRest, if_pos hne]
      rw [if_neg (by omega)]
  · intro h0
    have hz : (if a.restSecondsRemaining > 0 then jsCeilDiv a.restSecondsRemaining 60
        else jsFloorDiv a.restSecondsRemaining 60) = 0 := by
      rw [if_neg (by omega)]
      simp only [jsFloorDiv, hfd, h0]
      norm_num
    simp only [handlePauseRest, hz]
    norm_num

/-- Witness for C4 at the concrete examples of the claim: ending at 30
seconds remaining refunds 1 minute, ending at minus 75 seconds forfeits
2 minutes. -/
theorem c4_end_rest_rounding_witness :
    (handlePauseRest (restApp 30 0)).1.availableRestMinutes = 0 + jsCeilDiv 30 60
      ∧ (handlePauseRest (restApp (-75) 0)).1.availableRestMinutes
          = 0 + jsFloorDiv (-75) 60 :=
  ⟨(c4_end_rest_rounding (restApp 30 0)).1 (by decide),
   (c4_end_rest_rounding (restApp (-75) 0)).2.1 (by decide)⟩

/-- C5: For every use-rest command issued while not resting (on a
caught-up state): a positive balance starts the session with
secondsRemaining = balance * 60 and zeroes the balance; a non-positive
balance starts the session with 300 seconds borrowed and decrements the
balance by 5; and in the borrow path with balance 0, ending immediately
at 300 seconds remaining refunds 5 minutes, restoring the balance to
0. -/
theorem c5_use_rest_transition :
    ∀ a : AppState, a.isResting = false →
      a.prevPomodoros = a.pomodorosCompleted →
      jsFloorDiv a.totalSeconds POMODORO_DURATION_SECONDS ≤ a.pomodorosCompleted →
      ((0 < a.availableRestMinutes →
          (step .useRest a).1.restSecondsRemaining = a.availableRestMinutes * 60
            ∧ (step .useRest a).1.availableRestMinutes = 0)
        ∧ (a.availableRestMinutes ≤ 0 →
          (step .useRest a).1.restSecondsRemaining = 300
            ∧ (step .useRest a).1.availableRestMinutes = a.availableRestMinutes - 5)
        ∧ (a.availableRestMinutes = 0 →
          (step .endRest (step .useRest a).1).1.availableRestMinutes = 0)) := by
  intro a ha hprev hder
  have hstep : step .useRest a = stabilize (handleUseRest a).1 := by
    simp only [step]
    rw [if_neg (by simp [ha])]
  obtain ⟨hs1, hs2⟩ := handleUseRest_stable a ha hprev hder
  have hstab := stabilize_eq_of_stable (handleUseRest a).1 hs1 hs2
  obtain ⟨heff1, heff2⟩ := handleUseRest_effects a ha
  refine ⟨?_, ?_, ?_⟩
  · intro hb
    rw [hstep, hstab]
    exact heff1 hb
  · intro hb
    rw [hstep, hstab]
    exact heff2 hb
  · intro hb0
    obtain ⟨h300, hbal5⟩ := heff2 (le_of_eq hb0)
    have hcrest : (step .useRest a).1.isResting = true := by
      rw [hstep, hstab]
      exact handleUseRest_isResting_true a ha
    have hc300 : (step .useRest a).1.restSecondsRemaining = 300 := by
      rw [hstep, hstab]
      exact h300
    have hcbal : (step .useRest a).1.availableRestMinutes = -5 := by
      rw [hstep, hstab]
      show (handleUseRest a).1.availableRestMinutes = -5
      omega
    have hcprev : (step .useRest a).1.prevPomodoros
        = (step .useRest a).1.pomodorosCompleted := by
      rw [hstep, hstab]
      exact hs1
    have hcder : jsFloorDiv (step .useRest a).1.totalSeconds POMODORO_DURATION_SECONDS
        ≤ (step .useRest a).1.pomodorosCompleted := by
      rw [hstep, hstab]
      exact hs2
    generalize (step .useRest a).1 = c at hcrest hc300 hcbal hcprev hcder ⊢
    have hstep2 : step .endRest c = stabilize (handlePauseRest c).1 := by
      simp only [step]
      rw [if_pos hcrest]
    rw [hstep2, stabilize_eq_of_stable (handlePauseRest c).1
      (by rw [handlePauseRest_prevPomodoros, handlePauseRest_pomodoros]; exact hcprev)
      (by rw [handlePauseRest_totalSeconds, handlePauseRest_pomodoros]; exact hcder)]
    show (handlePauseRest c).1.availableRestMinutes = 0
    rw [handlePauseRest_at_300 c hc300, hcbal]
    norm_num

/-- Witness for C5 starting from the fresh state with balance 0. -/
theorem c5_use_rest_transition_witness :
    (step .endRest (step .useRest app0).1).1.availableRestMinutes = 0 :=
  (c5_use_rest_transition app0 rfl rfl (by decide)).2.2 rfl


/-- C10: The add-one-cycle command increments the completed-cycle count
by 1 and adds exactly one cycle length to the elapsed total,
re-anchoring the persisted start timestamp to the current instant when
running; for every state satisfying
completedCycles = floor(totalSeconds / cycleLengthSeconds) with a
non-negative total and a coherent persisted running flag, the state
after add-one-cycle satisfies the same equation, and a reload from the
persisted snapshot at the same instant reconstructs the same count
without a further increase. -/
theorem c10_add_cycle_reanchor :
    ∀ (a : AppState) (now : Int),
      a.pomodorosCompleted = jsFloorDiv a.totalSeconds POMODORO_DURATION_SECONDS →
      0 ≤ a.totalSeconds →
      a.storeIsRunning = a.isRunning →
      (step (.addPomodoro now) a).1.pomodorosCompleted = a.pomodorosCompleted + 1
      ∧ (step (.addPomodoro now) a).1.totalSeconds
          = a.totalSeconds + POMODORO_DURATION_SECONDS
      ∧ (step (.addPomodoro now) a).1.pomodorosCompleted
          = jsFloorDiv (step (.addPomodoro now) a).1.totalSeconds
              POMODORO_DURATION_SECONDS
      ∧ (a.isRunning = true → (step (.addPomodoro now) a).1.storeStartTime = some now)
      ∧ (getInitialState (storeOf (step (.addPomodoro now) a).1) now).pomodoros
          = JSNum.num ((step (.addPomodoro now) a).1.pomodorosCompleted) := by
  intro a now h1 h2 h3
  rw [jsFloorDiv_duration] at h1
  have hb_pom : (handleAddPomodoro now a).pomodorosCompleted
      = a.pomodorosCompleted + 1 := rfl
  have hb_total : (handleAddPomodoro now a).totalSeconds
      = a.totalSeconds + POMODORO_DURATION_SECONDS := rfl
  have hcd : cycleDerive (handleAddPomodoro now a) = handleAddPomodoro now a := by
    simp only [cycleDerive]
    rw [if_neg]
    rw [hb_total, hb_pom, jsFloorDiv_duration, pomodoro_duration_eq]
    omega
  have hstep : (step (.addPomodoro now) a).1 = (giftStep (handleAddPomodoro now a)).1 := by
    simp only [step, stabilize, hcd]
  have hpom : (step (.addPomodoro now) a).1.pomodorosCompleted
      = a.pomodorosCompleted + 1 := by
    rw [hstep, giftStep_pomodorosCompleted, hb_pom]
  have htot : (step (.addPomodoro now) a).1.totalSeconds
      = a.totalSeconds + POMODORO_DURATION_SECONDS := by
    rw [hstep, giftStep_totalSeconds, hb_total]
  have hsst : (step (.addPomodoro now) a).1.storeStartTime
      = if a.isRunning then some now else a.storeStartTime := by
    rw [hstep, giftStep_storeStartTime]
    rfl
  have hsacc : (step (.addPomodoro now) a).1.storeAccumulated
      = a.totalSeconds + POMODORO_DURATION_SECONDS := by
    rw [hstep, giftStep_storeAccumulated]
    rfl
  have hsrun : (step (.addPomodoro now) a).1.storeIsRunning = a.isRunning := by
    rw [hstep, giftStep_storeIsRunning, ← h3]
    rfl
  have hspom : (step (.addPomodoro now) a).1.storePomodoros
      = a.pomodorosCompleted + 1 := by
    rw [hstep, giftStep_storePomodoros, hb_pom]
  refine ⟨hpom, htot, ?_, ?_, ?_⟩
  · rw [hpom, htot, jsFloorDiv_duration, pomodoro_duration_eq]
    omega
  · intro hr
    rw [hsst, if_pos hr]
  · by_cases hr : a.isRunning = true
    · have hsst' : (step (.addPomodoro now) a).1.storeStartTime = some now := by
        rw [hsst, if_pos hr]
      simp only [storeOf, hsst', hsacc, hsrun, hspom, hr, if_true]
      rw [hpom]
      exact reload_pomodoros_running_fresh _ _ _ now
        (by rw [pomodoro_duration_eq]; omega)
        (by rw [pomodoro_duration_eq]; omega)
    · have hr' : a.isRunning = false := by
        cases hhh : a.isRunning
        · rfl
        · exact absurd hhh hr
      simp only [storeOf, hsacc, hsrun, hspom, hr', if_false, Bool.false_eq_true]
      rw [hpom]
      exact reload_pomodoros_not_running _ _ _ now _ _ (by simp [parseRunningFlag])
        (by rw [pomodoro_duration_eq]; omega)
        (by rw [pomodoro_duration_eq]; omega)

/-- Witness for C10 at the fresh state and instant 0. -/
theorem c10_add_cycle_reanchor_witness :
    (step (.addPomodoro 0) app0).1.pomodorosCompleted = app0.pomodorosCompleted + 1 :=
  (c10_add_cycle_reanchor app0 0 (by decide) (by decide) rfl).1

/-- C6 (amended): At startup the reconciled total is clamped so that any
numeric initial total is non-negative; the clamp applies to the total,
not to the elapsed delta, and the resume-from-background recomputation
applies no clamp at all, returning the checkpoint plus the signed
wall-clock delta. -/
theorem c6_reconciliation_clamp :
    (∀ (store : Store) (now : Int) (n : Int),
        (getInitialState store now).seconds = JSNum.num n → 0 ≤ n)
    ∧ (∀ sa st now : Int, st ≠ 0 →
        syncStateFromStorage
            { accumulated := .numeric sa, startTime := .numeric st,
              isRunningRaw := some "true", pomodoros := .absent, rest := .absent }
            now
          = some (JSNum.num (sa + jsFloorDiv (now - st) 1000))) := by
  constructor
  · intro store now n h
    simp only [getInitialState] at h
    split at h <;>
      (split at h
       · rw [JSNum.num.injEq] at h
         omega
       · rename_i hlt
         rw [h] at hlt
         simp only [JSNum.lt0, decide_eq_true_eq] at hlt
         omega)
  · intro sa st now h
    simp only [syncStateFromStorage, parseRunningFlag, StoredVal.parseOr0,
      JSNum.add, JSNum.sub, JSNum.floorDivPos]
    rw [if_pos (by simp), if_neg (by simp [h])]

/-- Witness for C6 on a concrete resume recomputation. -/
theorem c6_reconciliation_clamp_witness :
    syncStateFromStorage
        { accumulated := .numeric 3, startTime := .numeric 7,
          isRunningRaw := some "true", pomodoros := .absent, rest := .absent } 7
      = some (JSNum.num (3 + jsFloorDiv (7 - 7) 1000)) :=
  c6_reconciliation_clamp.2 3 7 7 (by decide)

/-- Counterexample to C6 as stated: with the clock rolled back one
second past the persisted start timestamp, the resume-from-background
recomputation produces the negative total -1, and at startup a rolled
back clock lowers the reconciled total (500) below the stored
accumulated seconds (1000), so the computed total is not clamped at the
delta and accumulated seconds are not non-decreasing. -/
theorem c6_negative_total_cex :
    syncStateFromStorage
        { accumulated := .numeric 0, startTime := .numeric 2000,
          isRunningRaw := some "true", pomodoros := .absent, rest := .absent } 1000
      = some (JSNum.num (-1))
    ∧ getInitialState
        { accumulated := .numeric 1000, startTime := .numeric 2000000,
          isRunningRaw := some "true", pomodoros := .absent, rest := .absent } 1500000
      = { pomodoros := .num 0, seconds := .num 500, isRunning := true,
          restMinutes := .num 0 }
    ∧ (-1 : Int) < 0 ∧ (500 : Int) < 1000 := by
  refine ⟨by decide, by decide, by decide, by decide⟩

/-- C7 (amended): the completed-cycle count never decreases under any
event other than the explicit remove-one-cycle and reset-cycles
commands; in particular every time-driven reconciliation, pause, tick
and resume transition only raises it, for every state. -/
theorem c7_cycle_monotone :
    ∀ (a : AppState) (e : Event), e.isCycleRemoval = false →
      a.pomodorosCompleted ≤ (step e a).1.pomodorosCompleted := by
  intro a e he
  cases e with
  | tick =>
    simp only [step]
    split
    · exact stabilize_pomodoros_le _
    · exact le_refl _
  | restTick =>
    simp only [step]
    split
    · exact stabilize_pomodoros_le _
    · exact le_refl _
  | startResume now =>
    simp only [step]
    split
    · exact stabilize_pomodoros_le _
    · exact le_refl _
  | pause =>
    simp only [step]
    split
    · exact le_trans (le_max_left _ _) (stabilize_pomodoros_le _)
    · exact le_refl _
  | resetTimer =>
    simp only [step]
    split
    · exact stabilize_pomodoros_le _
    · exact le_refl _
  | resetPomodoros now => simp [Event.isCycleRemoval] at he
  | resetRest => exact stabilize_pomodoros_le _
  | useRest =>
    simp only [step]
    split
    · exact le_refl _
    · exact le_trans (handleUseRest_pomodoros_le a) (stabilize_pomodoros_le _)
  | endRest =>
    simp only [step]
    split
    · rw [← handlePauseRest_pomodoros a]
      exact stabilize_pomodoros_le _
    · exact le_refl _
  | addPomodoro now =>
    exact le_trans (by omega : a.pomodorosCompleted ≤ a.pomodorosCompleted + 1)
      (stabilize_pomodoros_le _)
  | removePomodoro now => simp [Event.isCycleRemoval] at he
  | addRest n =>
    simp only [step, handleAddRestMinutes]
    split <;> exact stabilize_pomodoros_le _
  | removeRest n =>
    simp only [step, handleRemoveRestMinutes]
    split <;> exact stabilize_pomodoros_le _
  | visSync now =>
    simp only [step]
    split
    · rw [← handleVisSync_pomodoros now a]
      exact stabilize_pomodoros_le _
    · exact le_refl _

/-- Witness for C7 on a tick from the fresh state. -/
theorem c7_cycle_monotone_witness :
    app0.pomodorosCompleted ≤ (step .tick app0).1.pomodorosCompleted :=
  c7_cycle_monotone app0 .tick rfl

/-- Counterexample to C7 as stated: the reset-cycles command, which is
not the remove-cycle command, lowers the completed-cycle count of a
reachable state from 1 to 0. -/
theorem c7_reset_decreases_cex :
    Reachable pomodoroOneState
    ∧ pomodoroOneState.pomodorosCompleted = 1
    ∧ (step (.resetPomodoros 0) pomodoroOneState).1.pomodorosCompleted = 0 :=
  ⟨Reachable.step app0 (.addPomodoro 0)
    (Reachable.init emptyStore 0 app0 (by decide)),
   by decide, by decide⟩

/-- C8: In every reachable state the focus timer and the rest session
are mutually exclusive, and issuing use-rest while the focus timer runs
first performs the pause transition: it commits the accumulated seconds
to the store, clears the persisted start timestamp and both running
flags, and enters the resting state. -/
theorem c8_mutual_exclusion :
    (∀ a : AppState, Reachable a → a.isRunning = true → a.isResting = false)
    ∧ (∀ a : AppState, a.isResting = false → a.isRunning = true →
        (step .useRest a).1.isRunning = false
          ∧ (step .useRest a).1.isResting = true
          ∧ (step .useRest a).1.storeAccumulated = a.totalSeconds
          ∧ (step .useRest a).1.storeStartTime = none
          ∧ (step .useRest a).1.storeIsRunning = false) := by
  constructor
  · intro a hr
    induction hr with
    | init store now b h =>
      obtain ⟨-, -, h3⟩ := initAppOfStore_fields store now b h
      intro _
      exact h3
    | step b e _ ih => exact step_preserves_exclusion e b ih
  · intro a hRest hRun
    obtain ⟨h1, h2, h3, h4⟩ := handleUseRest_commits a hRest hRun
    have hstep : step .useRest a = stabilize (handleUseRest a).1 := by
      simp only [step]
      rw [if_neg (by simp [hRest])]
    rw [hstep, stabilize_isRunning, stabilize_isResting, stabilize_storeAccumulated,
      stabilize_storeStartTime, stabilize_storeIsRunning]
    exact ⟨handleUseRest_isRunning_false a hRest, h1, h2, h3, h4⟩

/-- Witness for C8: a reachable just-started state is not resting, and
use-rest on a running state pauses the focus timer. -/
theorem c8_mutual_exclusion_witness :
    (step (.startResume 3) app0).1.isResting = false
    ∧ ((step .useRest runningApp).1.isRunning = false
        ∧ (step .useRest runningApp).1.isResting = true
        ∧ (step .useRest runningApp).1.storeAccumulated = runningApp.totalSeconds
        ∧ (step .useRest runningApp).1.storeStartTime = none
        ∧ (step .useRest runningApp).1.storeIsRunning = false) :=
  ⟨c8_mutual_exclusion.1 (step (.startResume 3) app0).1
    (Reachable.step app0 (.startResume 3)
      (Reachable.init emptyStore 0 app0 (by decide))) (by decide),
   c8_mutual_exclusion.2 runningApp rfl rfl⟩

/-- C9 (amended): Every missing persisted field is substituted by its
documented default (0 for the numeric counters, false for the running
flag) and initialization never fails; but a stored non-numeric string in
a numeric field parses to NaN and propagates NaN into the corresponding
initial counter instead of 0. -/
theorem c9_missing_field_defaults :
    (∀ now : Int, getInitialState emptyStore now
        = { pomodoros := .num 0, seconds := .num 0, isRunning := false,
            restMinutes := .num 0 })
    ∧ (∀ (store : Store) (now : Int), store.rest = .absent →
        (getInitialState store now).restMinutes = .num 0)
    ∧ (∀ (store : Store) (now : Int), store.isRunningRaw = none →
        (getInitialState store now).isRunning = false)
    ∧ (∀ (store : Store) (now : Int), store.pomodoros = .nonNumeric →
        (getInitialState store now).pomodoros = .nan) := by
  refine ⟨?_, ?_, ?_, ?_⟩
  · intro now
    simp [getInitialState, emptyStore, StoredVal.parseOr0, parseRunningFlag,
      JSNum.lt0, JSNum.floorDivPos, JSNum.maxJS, jsFloorDiv]
  · intro store now h
    simp [getInitialState, h, StoredVal.parseOr0]
  · intro store now h
    simp [getInitialState, h, parseRunningFlag]
  · intro store now h
    simp [getInitialState, h, StoredVal.parseOr0, JSNum.maxJS]

/-- Witness for C9 on a store with the rest field absent. -/
theorem c9_missing_field_defaults_witness :
    (getInitialState emptyStore 5).restMinutes = .num 0 :=
  c9_missing_field_defaults.2.1 emptyStore 5 rfl

/-- Counterexample to C9 as stated: a non-numeric stored cycle count
yields an initial completed-cycle counter equal to NaN, not to the
documented default 0. -/
theorem c9_non_numeric_cex :
    (getInitialState
        { accumulated := .absent, startTime := .absent, isRunningRaw := none,
          pomodoros := .nonNumeric, rest := .absent } 0).pomodoros
      = JSNum.nan
    ∧ (getInitialState
        { accumulated := .absent, startTime := .absent, isRunningRaw := none,
          pomodoros := .nonNumeric, rest := .absent } 0).pomodoros
      ≠ JSNum.num 0 := by
  decide
